import Mathlib

/-!
UDPConnection (halley/net/src/udp_connection.cpp)

A shallow embedding of `Halley::UDPConnection`: the connection object, the
socket it sends through (seen as a log of `async_send_to` calls together with
the number of completions still owed), and the standard output stream the
completion handler writes to.  Every member function of the source file is a
Lean function of the same name.
-/

namespace Halley

/-! ## Collaborators declared outside the source file -/

/-- Modelled from the spec: the `ConnectionStatus` enumeration, whose declaration
is in a header that is not among the sources.  The spec names the three states
`Open`, `Closing`, `Closed`; the source uses `OPEN`, `CLOSING`, `CLOSED`. -/
inductive ConnectionStatus where
  | OPEN
  | CLOSING
  | CLOSED
  deriving DecidableEq, Repr

/-- Modelled from the spec: `NetworkPacket` (network_packet.h is not among the
sources), a raw byte payload.  Bytes are natural numbers. -/
structure NetworkPacket where
  data : List Nat
  deriving DecidableEq, Repr

/-- Modelled from the spec: the constructor `NetworkPacket(data, size)`, which
copies `size` bytes starting at `data` and records the length. -/
def NetworkPacket.construct (data : List Nat) (size : Nat) : NetworkPacket :=
  { data := data.take size }

/-- Modelled from the spec: `copyTo(buffer, bufferCapacity)`, which copies
`min(length, bufferCapacity)` bytes to the start of the buffer and returns the
number of bytes written.  The result is the buffer afterwards and that number. -/
def NetworkPacket.copyTo (p : NetworkPacket) (dst : List Nat) (maxSize : Nat) :
    List Nat × Nat :=
  let n := min p.data.length maxSize
  (p.data.take n ++ dst.drop n, n)

/-- Remote endpoint of a connection: an address and a port. -/
structure UDPEndpoint where
  address : Nat
  port : Nat
  deriving DecidableEq, Repr

/-- The `boost::system::error_code` handed to a completion handler: it tests as
true exactly when `value` is not zero. -/
structure error_code where
  value : Int
  message : String
  deriving DecidableEq, Repr

/-- One call of `async_send_to`: the bytes of the buffer and the destination. -/
structure SendTo where
  payload : List Nat
  remote : UDPEndpoint
  deriving DecidableEq, Repr

/-- The socket as the connection sees it: the calls of `async_send_to` made so
far (oldest first) and how many of them have not had their completion handler
run yet. -/
structure UDPSocket where
  sent : List SendTo
  inFlight : Nat
  deriving DecidableEq, Repr

/-- Issue one asynchronous send: the call is logged and one more completion is
owed. -/
def UDPSocket.async_send_to (s : UDPSocket) (payload : List Nat) (remote : UDPEndpoint) :
    UDPSocket :=
  { sent := s.sent ++ [{ payload := payload, remote := remote }]
    inFlight := s.inFlight + 1 }

/-! ## The connection -/

/-- Data members of `UDPConnection` (the socket is held by reference and lives
in `World`).  `sendBuffer` is the scratch array; its length is its capacity. -/
structure UDPConnection where
  remote : UDPEndpoint
  status : ConnectionStatus
  pendingSend : List NetworkPacket
  pendingReceive : List NetworkPacket
  error : String
  sendBuffer : List Nat
  deriving DecidableEq, Repr

/-- A connection together with what its member functions reach outside it:
the socket and standard output. -/
structure World where
  conn : UDPConnection
  socket : UDPSocket
  cout : List String
  deriving DecidableEq, Repr

/-- The constructor `UDPConnection(socket, remote)`: status `OPEN`, empty queues,
empty error string.  The initial contents of the scratch buffer are arbitrary. -/
def UDPConnection.construct (remote : UDPEndpoint) (sendBuffer : List Nat) : UDPConnection :=
  { remote := remote
    status := .OPEN
    pendingSend := []
    pendingReceive := []
    error := ""
    sendBuffer := sendBuffer }

/-- A freshly constructed connection over a socket on which it has issued
nothing yet. -/
def World.fresh (remote : UDPEndpoint) (sendBuffer : List Nat) : World :=
  { conn := UDPConnection.construct remote sendBuffer
    socket := { sent := [], inFlight := 0 }
    cout := [] }

/-- The hook `onClose`: its only branch is empty in the source. -/
def onClose (c : UDPConnection) : UDPConnection :=
  if c.status = .OPEN then c else c

/-- The member `close`: run the hook, then set the status to `CLOSING`. -/
def close (c : UDPConnection) : UDPConnection :=
  { onClose c with status := .CLOSING }

/-- The member `terminateConnection`: run the hook, then set the status to
`CLOSED`. -/
def terminateConnection (c : UDPConnection) : UDPConnection :=
  { onClose c with status := .CLOSED }

/-- The member `receive`: the returned flag, the output packet afterwards, and
the connection afterwards. -/
def receive (c : UDPConnection) (packet : NetworkPacket) :
    Bool × NetworkPacket × UDPConnection :=
  match c.pendingReceive with
  | [] => (false, packet, c)
  | front :: _ => (true, front, { c with pendingReceive := [] })

/-- The member `matchesEndpoint`. -/
def matchesEndpoint (c : UDPConnection) (remoteEndpoint : UDPEndpoint) : Bool :=
  decide (c.remote = remoteEndpoint)

/-- The member `onReceive`.  `ndebug` tells whether `assert` is compiled out;
when it is not, a failing `assert(size <= 1500)` aborts the program and there is
no state afterwards (`none`). -/
def onReceive (ndebug : Bool) (c : UDPConnection) (data : List Nat) (size : Nat) :
    Option UDPConnection :=
  if ndebug = false ∧ ¬ size ≤ 1500 then none
  else if size ≤ 1500 then
    some { c with pendingReceive := c.pendingReceive ++ [NetworkPacket.construct data size] }
  else some c

/-- The member `setError`. -/
def setError (c : UDPConnection) (cs : String) : UDPConnection :=
  { c with error := cs }

/-- The member `sendNext`, up to and including the call of `async_send_to`
(the completion handler it registers is `sendCallback`). -/
def sendNext (w : World) : World :=
  match w.conn.pendingSend with
  | [] => w
  | packet :: rest =>
    let r := packet.copyTo w.conn.sendBuffer w.conn.sendBuffer.length
    let c : UDPConnection := { w.conn with sendBuffer := r.1, pendingSend := rest }
    { w with
      conn := c
      socket := w.socket.async_send_to (r.1.take r.2) c.remote }

/-- The completion handler registered by `sendNext`, as run by the socket with
the error code and the number of bytes transferred. -/
def sendCallback (w : World) (error : error_code) (_size : Nat) : World :=
  if error.value ≠ 0 then
    { w with
      cout := w.cout ++ ["Error sending packet: " ++ error.message ++ "\n"]
      conn := close w.conn }
  else if w.conn.pendingSend ≠ [] then sendNext w
  else w

/-- The member `send`. -/
def send (w : World) (packet : NetworkPacket) : World :=
  if w.conn.status = .OPEN then
    let needsSend := w.conn.pendingSend.isEmpty
    let w1 : World := { w with conn := { w.conn with pendingSend := w.conn.pendingSend ++ [packet] } }
    if needsSend then sendNext w1 else w1
  else w

/-! ## Operations and runs -/

/-- What can happen to a connection: a call of one of its members, or the socket
running the completion handler of a send issued earlier. -/
inductive Op where
  | send (packet : NetworkPacket)
  | close
  | terminateConnection
  | receive (packet : NetworkPacket)
  | onReceive (data : List Nat) (size : Nat)
  | setError (cs : String)
  | complete (error : error_code) (size : Nat)
  deriving DecidableEq, Repr

/-- One operation.  A completion is possible only while a send is in flight; the
socket then owes one completion less and runs the handler.  `none` when the
operation cannot happen or the program aborts. -/
def step (ndebug : Bool) (w : World) : Op → Option World
  | .send packet => some (send w packet)
  | .close => some { w with conn := close w.conn }
  | .terminateConnection => some { w with conn := terminateConnection w.conn }
  | .receive packet => some { w with conn := (receive w.conn packet).2.2 }
  | .onReceive data size =>
    match onReceive ndebug w.conn data size with
    | none => none
    | some c => some { w with conn := c }
  | .setError cs => some { w with conn := setError w.conn cs }
  | .complete error size =>
    if 0 < w.socket.inFlight then
      some (sendCallback { w with socket := { w.socket with inFlight := w.socket.inFlight - 1 } }
        error size)
    else none

/-- A sequence of operations, oldest first. -/
def run (ndebug : Bool) (w : World) : List Op → Option World
  | [] => some w
  | op :: ops =>
    match step ndebug w op with
    | none => none
    | some w1 => run ndebug w1 ops

/-- The states a connection can be in: those a freshly constructed connection
reaches by some sequence of operations. -/
def Reachable (ndebug : Bool) (w : World) : Prop :=
  ∃ remote sendBuffer ops, run ndebug (World.fresh remote sendBuffer) ops = some w

/-- The payloads handed to `async_send_to`, oldest first. -/
def UDPSocket.payloads (s : UDPSocket) : List (List Nat) :=
  s.sent.map SendTo.payload

/-- The operations delivering the datagrams `ds` (bytes and size) in order. -/
def deliveries (ds : List (List Nat × Nat)) : List Op :=
  ds.map fun d => Op.onReceive d.1 d.2

/-! ## Shared lemmas -/

theorem sendNext_of_nil (w : World) (h : w.conn.pendingSend = []) : sendNext w = w := by
  unfold sendNext
  rw [h]

theorem send_pendingSend_nil (w : World) (packet : NetworkPacket)
    (h : w.conn.pendingSend = []) : (send w packet).conn.pendingSend = [] := by
  unfold send
  split
  · simp [h, sendNext]
  · exact h

theorem sendCallback_pendingSend_nil (w : World) (error : error_code) (size : Nat)
    (h : w.conn.pendingSend = []) : (sendCallback w error size).conn.pendingSend = [] := by
  unfold sendCallback
  split
  · simpa [close, onClose] using h
  · simp [h]

theorem step_pendingSend_nil (ndebug : Bool) (w w1 : World) (op : Op)
    (h : w.conn.pendingSend = []) (hs : step ndebug w op = some w1) :
    w1.conn.pendingSend = [] := by
  cases op with
  | send packet =>
    simp only [step, Option.some.injEq] at hs
    subst hs
    exact send_pendingSend_nil w packet h
  | close =>
    simp only [step, Option.some.injEq] at hs
    subst hs
    simpa [close, onClose] using h
  | terminateConnection =>
    simp only [step, Option.some.injEq] at hs
    subst hs
    simpa [terminateConnection, onClose] using h
  | receive packet =>
    simp only [step, Option.some.injEq] at hs
    subst hs
    unfold receive
    split <;> simpa using h
  | onReceive data size =>
    simp only [step, onReceive] at hs
    split at hs
    · cases hs
    · rename_i c hc
      simp only [Option.some.injEq] at hs
      subst hs
      split at hc
      · cases hc
      · split at hc <;>
        · simp only [Option.some.injEq] at hc
          subst hc
          simpa using h
  | setError cs =>
    simp only [step, Option.some.injEq] at hs
    subst hs
    simpa [setError] using h
  | complete error size =>
    simp only [step] at hs
    split at hs
    · simp only [Option.some.injEq] at hs
      subst hs
      exact sendCallback_pendingSend_nil _ error size h
    · cases hs

theorem run_pendingSend_nil (ndebug : Bool) (ops : List Op) :
    ∀ w w1 : World, w.conn.pendingSend = [] → run ndebug w ops = some w1 →
      w1.conn.pendingSend = [] := by
  induction ops with
  | nil =>
    intro w w1 h hr
    simp only [run, Option.some.injEq] at hr
    subst hr
    exact h
  | cons op ops ih =>
    intro w w1 h hr
    simp only [run] at hr
    split at hr
    · cases hr
    · rename_i w2 hw2
      exact ih w2 w1 (step_pendingSend_nil ndebug w w2 op h hw2) hr

theorem reachable_pendingSend_nil (ndebug : Bool) (w : World) (h : Reachable ndebug w) :
    w.conn.pendingSend = [] := by
  obtain ⟨remote, sendBuffer, ops, hr⟩ := h
  exact run_pendingSend_nil ndebug ops _ w rfl hr

theorem copyTo_payload (p : NetworkPacket) (dst : List Nat) :
    (p.copyTo dst dst.length).1.take (p.copyTo dst dst.length).2 = p.data.take dst.length := by
  simp only [NetworkPacket.copyTo]
  rw [List.take_left' (by simp)]
  rcases le_total p.data.length dst.length with h | h
  · rw [Nat.min_eq_left h, List.take_of_length_le (le_refl _), List.take_of_length_le h]
  · rw [Nat.min_eq_right h]

theorem send_socket_of_open (w : World) (packet : NetworkPacket)
    (ho : w.conn.status = ConnectionStatus.OPEN) (hq : w.conn.pendingSend = []) :
    (send w packet).socket =
      w.socket.async_send_to (packet.data.take w.conn.sendBuffer.length) w.conn.remote := by
  simp only [send, ho, hq, if_true, List.isEmpty_nil, List.nil_append, sendNext]
  rw [copyTo_payload]

theorem sendCallback_of_success (w : World) (error : error_code) (size : Nat)
    (he : error.value = 0) (hq : w.conn.pendingSend = []) : sendCallback w error size = w := by
  simp [sendCallback, he, hq]

theorem sendCallback_socket_of_nil (w : World) (error : error_code) (size : Nat)
    (hq : w.conn.pendingSend = []) : (sendCallback w error size).socket = w.socket := by
  unfold sendCallback
  split
  · rfl
  · simp [hq]

theorem send_of_not_open (w : World) (packet : NetworkPacket)
    (h : w.conn.status ≠ ConnectionStatus.OPEN) : send w packet = w := by
  simp [send, h]

theorem run_deliveries (ndebug : Bool) (ds : List (List Nat × Nat)) :
    ∀ w : World, (∀ d ∈ ds, d.2 ≤ 1500) →
      run ndebug w (deliveries ds) =
        some { w with conn := { w.conn with
          pendingReceive := w.conn.pendingReceive ++
            ds.map fun d => NetworkPacket.construct d.1 d.2 } } := by
  induction ds with
  | nil => intro w _; simp [deliveries, run]
  | cons d ds ih =>
    intro w h
    have hd : d.2 ≤ 1500 := h d (List.mem_cons_self _ _)
    have ht : ∀ x ∈ ds, x.2 ≤ 1500 := fun x hx => h x (List.mem_cons_of_mem _ hx)
    have hrun := ih { w with conn := { w.conn with
      pendingReceive := w.conn.pendingReceive ++ [NetworkPacket.construct d.1 d.2] } } ht
    simp only [deliveries, List.map_cons, run, step, onReceive, hd, not_true_eq_false,
      and_false, if_false, if_true] at hrun ⊢
    rw [hrun]
    simp

/-! ## C1: sends in flight -/

/-- C1, evaluated on the code: on a freshly constructed connection two calls of
`send` with no completion in between each issue an `async_send_to`, so two sends
are in flight at once (and the outbound queue is empty again after each). -/
theorem two_sends_two_in_flight :
    (run true (World.fresh { address := 1, port := 4113 } [0, 0, 0, 0])
        [Op.send { data := [104, 105] }, Op.send { data := [33] }]).map
      (fun w => (w.socket.inFlight, w.socket.payloads, w.conn.pendingSend)) =
      some (2, [[104, 105], [33]], []) := by
  decide

/-! ## C2: direction of status changes -/

/-- C3: when the inbound queue is empty, `receive` returns false, the output
packet keeps its value, and the connection (status, both queues, error slot and
every other member) is unchanged. -/
theorem receive_empty (c : UDPConnection) (packet : NetworkPacket)
    (h : c.pendingReceive = []) : receive c packet = (false, packet, c) := by
  unfold receive
  rw [h]

/-- C3 at a concrete input: a fresh connection and a packet holding one byte. -/
theorem receive_empty_witness :
    receive (UDPConnection.construct { address := 1, port := 4113 } [0, 0])
        { data := [7] } =
      (false, { data := [7] }, UDPConnection.construct { address := 1, port := 4113 } [0, 0]) :=
  receive_empty (UDPConnection.construct { address := 1, port := 4113 } [0, 0])
    { data := [7] } rfl

/-! ## C4: receive after deliveries -/

/-- C4: after the deliveries `d :: ds`, each of size at most 1500, made through
`onReceive` to a connection whose inbound queue was empty, the inbound queue
holds the packets built from them in arrival order, and the next `receive`
returns true with the output packet set to the packet built from `d`. -/
theorem receive_after_deliveries (ndebug : Bool) (w : World) (d : List Nat × Nat)
    (ds : List (List Nat × Nat)) (packet : NetworkPacket)
    (hq : w.conn.pendingReceive = []) (hsize : ∀ x ∈ d :: ds, x.2 ≤ 1500) :
    ∃ w1, run ndebug w (deliveries (d :: ds)) = some w1 ∧
      w1.conn.pendingReceive = (d :: ds).map (fun x => NetworkPacket.construct x.1 x.2) ∧
      (receive w1.conn packet).1 = true ∧
      (receive w1.conn packet).2.1 = NetworkPacket.construct d.1 d.2 := by
  refine ⟨_, run_deliveries ndebug (d :: ds) w hsize, ?_, ?_, ?_⟩
  · simp [hq]
  · simp [receive, hq]
  · simp [receive, hq]

/-- C4 at a concrete input: two deliveries to a fresh connection, with
assertions enabled. -/
theorem receive_after_deliveries_witness :
    ∃ w1, run false (World.fresh { address := 1, port := 4113 } [0, 0])
        (deliveries [([104, 105], 2), ([33], 1)]) = some w1 ∧
      w1.conn.pendingReceive =
        [([104, 105], 2), ([33], 1)].map (fun x => NetworkPacket.construct x.1 x.2) ∧
      (receive w1.conn { data := [] }).1 = true ∧
      (receive w1.conn { data := [] }).2.1 = NetworkPacket.construct [104, 105] 2 :=
  receive_after_deliveries false (World.fresh { address := 1, port := 4113 } [0, 0])
    ([104, 105], 2) [([33], 1)] { data := [] } rfl (by decide)

/-! ## C5: order of the sends handed to the socket -/

/-- C6: in a reachable state whose status is `CLOSED`, a call of `send` returns
and changes nothing, the completion of a send still in flight (with or without
an error) runs and issues no `async_send_to`, and more generally no operation at
all adds a call of `async_send_to` or raises the number of sends in flight. -/
theorem closed_issues_no_send (ndebug : Bool) (w : World) (hr : Reachable ndebug w)
    (hc : w.conn.status = ConnectionStatus.CLOSED) :
    (∀ packet, step ndebug w (Op.send packet) = some w) ∧
    (∀ error size, 0 < w.socket.inFlight →
      ∃ w1, step ndebug w (Op.complete error size) = some w1 ∧
        w1.socket.sent = w.socket.sent ∧ w1.socket.inFlight = w.socket.inFlight - 1) ∧
    (∀ op w1, step ndebug w op = some w1 →
      w1.socket.sent = w.socket.sent ∧ w1.socket.inFlight ≤ w.socket.inFlight) := by
  have hq := reachable_pendingSend_nil ndebug w hr
  have hno : w.conn.status ≠ ConnectionStatus.OPEN := by rw [hc]; decide
  refine ⟨fun packet => ?_, fun error size hfl => ?_, fun op w1 hs => ?_⟩
  · simp [step, send_of_not_open w packet hno]
  · refine ⟨sendCallback
        { w with socket := { w.socket with inFlight := w.socket.inFlight - 1 } } error size,
        by simp only [step, hfl, if_true], ?_, ?_⟩ <;>
      rw [sendCallback_socket_of_nil _ error size (by exact hq)]
  · cases op with
    | send packet =>
      simp only [step, send_of_not_open w packet hno, Option.some.injEq] at hs
      subst hs
      exact ⟨rfl, le_refl _⟩
    | close =>
      simp only [step, Option.some.injEq] at hs
      subst hs
      exact ⟨rfl, le_refl _⟩
    | terminateConnection =>
      simp only [step, Option.some.injEq] at hs
      subst hs
      exact ⟨rfl, le_refl _⟩
    | receive packet =>
      simp only [step, Option.some.injEq] at hs
      subst hs
      exact ⟨rfl, le_refl _⟩
    | onReceive data size =>
      simp only [step] at hs
      split at hs
      · cases hs
      · simp only [Option.some.injEq] at hs
        subst hs
        exact ⟨rfl, le_refl _⟩
    | setError cs =>
      simp only [step, Option.some.injEq] at hs
      subst hs
      exact ⟨rfl, le_refl _⟩
    | complete error size =>
      simp only [step] at hs
      split at hs
      · simp only [Option.some.injEq] at hs
        subst hs
        rw [sendCallback_socket_of_nil _ error size (by exact hq)]
        exact ⟨rfl, Nat.sub_le _ _⟩
      · cases hs

/-- C6 at a concrete input: a connection terminated while its one send was in
flight; the completion of that send, with an error, issues nothing. -/
theorem closed_issues_no_send_witness :
    ∃ w1, step true
        { conn := { remote := { address := 1, port := 4113 }, status := ConnectionStatus.CLOSED,
                    pendingSend := [], pendingReceive := [], error := "",
                    sendBuffer := [7, 0] },
          socket := { sent := [{ payload := [7], remote := { address := 1, port := 4113 } }],
                      inFlight := 1 },
          cout := [] }
        (Op.complete { value := 1, message := "refused" } 0) = some w1 ∧
      w1.socket.sent = [{ payload := [7], remote := { address := 1, port := 4113 } }] ∧
      w1.socket.inFlight = 1 - 1 :=
  (closed_issues_no_send true
    { conn := { remote := { address := 1, port := 4113 }, status := ConnectionStatus.CLOSED,
                pendingSend := [], pendingReceive := [], error := "",
                sendBuffer := [7, 0] },
      socket := { sent := [{ payload := [7], remote := { address := 1, port := 4113 } }],
                  inFlight := 1 },
      cout := [] }
    ⟨{ address := 1, port := 4113 }, [0, 0],
      [Op.send { data := [7] }, Op.terminateConnection], rfl⟩
    rfl).2.1 { value := 1, message := "refused" } 0 (by decide)

/-! ## C7: send on a connection that is not open -/

/-- C7: when the status is not `OPEN`, `send` returns the state it was given: the
connection (both queues, status, error slot, scratch buffer), the socket (no
`async_send_to` issued, nothing more in flight) and standard output are
unchanged. -/
theorem send_not_open_noop (w : World) (packet : NetworkPacket)
    (h : w.conn.status ≠ ConnectionStatus.OPEN) : send w packet = w :=
  send_of_not_open w packet h

/-- C7 at a concrete input: a connection that was closed (status `CLOSING`). -/
theorem send_not_open_noop_witness :
    send { World.fresh { address := 1, port := 4113 } [0, 0] with
        conn := close (UDPConnection.construct { address := 1, port := 4113 } [0, 0]) }
      { data := [9] } =
    { World.fresh { address := 1, port := 4113 } [0, 0] with
        conn := close (UDPConnection.construct { address := 1, port := 4113 } [0, 0]) } :=
  send_not_open_noop _ { data := [9] } (by decide)

/-! ## C8: what onReceive queues -/

/-- C8, counterexample: with assertions enabled, `onReceive` with a size of 1501
fails `assert(size <= 1500)` and the program aborts: the call does not return. -/
theorem onReceive_oversize_aborts :
    onReceive false (UDPConnection.construct { address := 1, port := 4113 } [0, 0])
      (List.replicate 1501 0) 1501 = none := by
  simp [onReceive]

/-- C8, amended: for a size of at most 1500, `onReceive` returns and appends
exactly one packet, built from the data, at the back of the inbound queue, the
packets already queued and every other member unchanged; for a size above 1500,
it returns with the connection unchanged when assertions are compiled out, and
aborts on its assertion when they are not.  In no case does an oversize datagram
reach the inbound queue. -/
theorem onReceive_appends_or_drops (ndebug : Bool) (c : UDPConnection) (data : List Nat)
    (size : Nat) :
    (size ≤ 1500 →
      onReceive ndebug c data size =
        some { c with pendingReceive :=
          c.pendingReceive ++ [NetworkPacket.construct data size] }) ∧
    (1500 < size → onReceive true c data size = some c) ∧
    (1500 < size → onReceive false c data size = none) ∧
    (1500 < size → ∀ c1, onReceive ndebug c data size = some c1 → c1 = c) := by
  refine ⟨fun h => ?_, fun h => ?_, fun h => ?_, fun h c1 hc => ?_⟩
  · simp [onReceive, h]
  · simp [onReceive, Nat.not_le.mpr h]
  · simp [onReceive, Nat.not_le.mpr h]
  · cases ndebug <;> simp [onReceive, Nat.not_le.mpr h] at hc
    exact hc.symm

/-- C8, amended, at concrete inputs: a datagram of two bytes is queued behind
the packet already there; one of 1501 bytes is dropped when assertions are
compiled out. -/
theorem onReceive_appends_or_drops_witness :
    onReceive false
        { UDPConnection.construct { address := 1, port := 4113 } [0, 0] with
          pendingReceive := [{ data := [5] }] } [104, 105] 2 =
      some { UDPConnection.construct { address := 1, port := 4113 } [0, 0] with
          pendingReceive := [{ data := [5] }, { data := [104, 105] }] } ∧
    onReceive true
        { UDPConnection.construct { address := 1, port := 4113 } [0, 0] with
          pendingReceive := [{ data := [5] }] } (List.replicate 1501 0) 1501 =
      some { UDPConnection.construct { address := 1, port := 4113 } [0, 0] with
          pendingReceive := [{ data := [5] }] } :=
  ⟨(onReceive_appends_or_drops false
      { UDPConnection.construct { address := 1, port := 4113 } [0, 0] with
        pendingReceive := [{ data := [5] }] } [104, 105] 2).1 (by decide),
    (onReceive_appends_or_drops true
      { UDPConnection.construct { address := 1, port := 4113 } [0, 0] with
        pendingReceive := [{ data := [5] }] } (List.replicate 1501 0) 1501).2.1 (by decide)⟩

/-! ## C9: completion of a send with an error -/

/-- C9, counterexample: a fresh connection sends one packet and the send
completes with the error "refused"; afterwards the status is `CLOSING` and
nothing more was sent, but the error slot still holds the empty string: the
message went to standard output only. -/
theorem send_error_not_recorded :
    (run true (World.fresh { address := 1, port := 4113 } [0, 0])
        [Op.send { data := [7] }, Op.complete { value := 1, message := "refused" } 0]).map
      (fun w => (w.conn.error, w.conn.status, w.socket.payloads, w.cout)) =
      some ("", ConnectionStatus.CLOSING, [[7]], ["Error sending packet: refused\n"]) ∧
    "" ≠ "refused" := by
  decide

/-- C9, amended: when a send in flight completes with an error, the handler
runs, the status afterwards is `CLOSING`, no `async_send_to` is issued from the
completion, the message is written to standard output, and the error slot and
both queues keep their values. -/
theorem send_error_closes (ndebug : Bool) (w : World) (error : error_code) (size : Nat)
    (hfl : 0 < w.socket.inFlight) (he : error.value ≠ 0) :
    ∃ w1, step ndebug w (Op.complete error size) = some w1 ∧
      w1.conn.status = ConnectionStatus.CLOSING ∧
      w1.socket.sent = w.socket.sent ∧
      w1.socket.inFlight = w.socket.inFlight - 1 ∧
      w1.cout = w.cout ++ ["Error sending packet: " ++ error.message ++ "\n"] ∧
      w1.conn.error = w.conn.error ∧
      w1.conn.pendingSend = w.conn.pendingSend ∧
      w1.conn.pendingReceive = w.conn.pendingReceive := by
  refine ⟨sendCallback
    { w with socket := { w.socket with inFlight := w.socket.inFlight - 1 } } error size,
    by simp only [step, hfl, if_true], ?_⟩
  simp [sendCallback, he, close, onClose]

/-- C9, amended, at a concrete input: the one send of a connection completes
with the error "refused". -/
theorem send_error_closes_witness :
    ∃ w1, step true (send (World.fresh { address := 1, port := 4113 } [0, 0]) { data := [7] })
        (Op.complete { value := 1, message := "refused" } 0) = some w1 ∧
      w1.conn.status = ConnectionStatus.CLOSING ∧ w1.conn.error = "" :=
  (send_error_closes true (send (World.fresh { address := 1, port := 4113 } [0, 0])
    { data := [7] }) { value := 1, message := "refused" } 0 (by decide) (by decide)).imp
    fun _ h => ⟨h.1, h.2.1, h.2.2.2.2.2.1⟩

/-! ## C10: receive empties the inbound queue -/

/-- C10: when the inbound queue holds `front :: rest`, `receive` returns true
with the output packet set to `front` and leaves the inbound queue empty, so a
`receive` right after it returns false and changes nothing; the connection
afterwards is the one obtained had `rest` never been queued, so nothing that
happens later depends on the packets behind the head. -/
theorem receive_clears_queue (c : UDPConnection) (packet front : NetworkPacket)
    (rest : List NetworkPacket) (h : c.pendingReceive = front :: rest) :
    receive c packet = (true, front, { c with pendingReceive := [] }) ∧
    (receive c packet).2.2.pendingReceive = [] ∧
    receive (receive c packet).2.2 (receive c packet).2.1 =
      (false, front, (receive c packet).2.2) ∧
    (receive c packet).2.2 = (receive { c with pendingReceive := [front] } packet).2.2 ∧
    (∀ ndebug socket cout ops,
      run ndebug { conn := (receive c packet).2.2, socket := socket, cout := cout } ops =
      run ndebug { conn := (receive { c with pendingReceive := [front] } packet).2.2,
                   socket := socket, cout := cout } ops) := by
  have h1 : receive c packet = (true, front, { c with pendingReceive := [] }) := by
    simp [receive, h]
  have h2 : receive { c with pendingReceive := [front] } packet =
      (true, front, { c with pendingReceive := [] }) := by
    simp [receive]
  refine ⟨h1, ?_, ?_, ?_, ?_⟩
  · rw [h1]
  · rw [h1]; simp [receive]
  · rw [h1, h2]
  · intro ndebug socket cout ops
    rw [h1, h2]

/-- C10 at a concrete input: three packets queued, one `receive`. -/
theorem receive_clears_queue_witness :
    receive { UDPConnection.construct { address := 1, port := 4113 } [0, 0] with
        pendingReceive := [{ data := [1] }, { data := [2] }, { data := [3] }] }
      { data := [] } =
    (true, { data := [1] }, UDPConnection.construct { address := 1, port := 4113 } [0, 0]) :=
  (receive_clears_queue
    { UDPConnection.construct { address := 1, port := 4113 } [0, 0] with
      pendingReceive := [{ data := [1] }, { data := [2] }, { data := [3] }] }
    { data := [] } { data := [1] } [{ data := [2] }, { data := [3] }] rfl).1

/-! ## C11: setError changes the error slot only -/

/-- C11: `setError` sets the error slot to the message it is given and changes
nothing else: status, outbound queue, inbound queue, remote endpoint and scratch
buffer keep their values, and as an operation it returns with the socket (calls
of `async_send_to`, sends in flight) and standard output unchanged. -/
theorem setError_sets_error_only (ndebug : Bool) (w : World) (cs : String) :
    (setError w.conn cs).error = cs ∧
    (setError w.conn cs).status = w.conn.status ∧
    (setError w.conn cs).pendingSend = w.conn.pendingSend ∧
    (setError w.conn cs).pendingReceive = w.conn.pendingReceive ∧
    (setError w.conn cs).remote = w.conn.remote ∧
    (setError w.conn cs).sendBuffer = w.conn.sendBuffer ∧
    step ndebug w (Op.setError cs) =
      some { conn := setError w.conn cs, socket := w.socket, cout := w.cout } := by
  refine ⟨rfl, rfl, rfl, rfl, rfl, rfl, rfl⟩

/-! ## C12: the outbound queue between operations -/

/-- C12: in every state reachable from construction the outbound queue is empty;
it is empty again after any call of `send` and after any completion handler; a
`send` on an open connection issues its own `async_send_to` at once, with the
payload of the packet it was given; and a completion without error finds the
queue empty, so it does not take the chaining branch: it changes nothing beyond
the send that is no longer in flight. -/
theorem pendingSend_always_empty (ndebug : Bool) (w : World) (hr : Reachable ndebug w) :
    w.conn.pendingSend = [] ∧
    (∀ packet, (send w packet).conn.pendingSend = []) ∧
    (∀ packet, w.conn.status = ConnectionStatus.OPEN →
      (send w packet).socket =
        w.socket.async_send_to (packet.data.take w.conn.sendBuffer.length) w.conn.remote) ∧
    (∀ error size, 0 < w.socket.inFlight →
      ∃ w1, step ndebug w (Op.complete error size) = some w1 ∧ w1.conn.pendingSend = []) ∧
    (∀ error size, 0 < w.socket.inFlight → error.value = 0 →
      step ndebug w (Op.complete error size) =
        some { w with socket := { w.socket with inFlight := w.socket.inFlight - 1 } }) := by
  have hq := reachable_pendingSend_nil ndebug w hr
  refine ⟨hq, fun packet => send_pendingSend_nil w packet hq,
    fun packet ho => send_socket_of_open w packet ho hq, fun error size hfl => ?_,
    fun error size hfl he => ?_⟩
  · exact ⟨sendCallback
      { w with socket := { w.socket with inFlight := w.socket.inFlight - 1 } } error size,
      by simp only [step, hfl, if_true],
      sendCallback_pendingSend_nil _ error size (by exact hq)⟩
  · simp only [step, hfl, if_true]
    rw [sendCallback_of_success _ error size he (by exact hq)]

/-- C12 at a concrete input: a fresh connection after one `send`; a second
`send` leaves the queue empty and issues a second `async_send_to`. -/
theorem pendingSend_always_empty_witness :
    (send (World.fresh { address := 1, port := 4113 } [0, 0]) { data := [7] }).conn.pendingSend
      = [] ∧
    (send (send (World.fresh { address := 1, port := 4113 } [0, 0]) { data := [7] })
      { data := [8, 9] }).socket =
      { sent := [{ payload := [7], remote := { address := 1, port := 4113 } },
                 { payload := [8, 9], remote := { address := 1, port := 4113 } }],
        inFlight := 2 } :=
  ⟨(pendingSend_always_empty true
      (send (World.fresh { address := 1, port := 4113 } [0, 0]) { data := [7] })
      ⟨{ address := 1, port := 4113 }, [0, 0], [Op.send { data := [7] }], rfl⟩).1,
    ((pendingSend_always_empty true
      (send (World.fresh { address := 1, port := 4113 } [0, 0]) { data := [7] })
      ⟨{ address := 1, port := 4113 }, [0, 0], [Op.send { data := [7] }], rfl⟩).2.2.1
      { data := [8, 9] } rfl).trans (by decide)⟩

end Halley
